import Mathlib

/-!
# Verification of the qubic-js quorum-replicating client core

Shallow embedding of the connection core (`createConnection`) and client
layer (`client`) of the repository, together with theorems settling the
frozen claims about quorum comparison, sync tracking, request routing,
the durable outbox pipeline, and connection lifecycle.

Slot vectors are `List (Option String)`: a JavaScript array whose length
is the list length, with `none` standing for a hole (an index that was
never assigned) and `some s` for the raw wire string stored at a slot.
-/

namespace QubicJs

/-- JavaScript property-key coercion applied when a slot value is used as
an object key (`counts[responses[i]]`): a present string is its own key,
while reading a hole yields `undefined`, which coerces to the property
key `"undefined"`. -/
def jsPropKey : Option String → String
  | none => "undefined"
  | some s => s

/-- Embedding of `compareResponses` (src/unnamed/part_000 lines 15-30):
build `counts` by incrementing `counts[responses[i]]` for every index
`i < responses.length` (holes included, under the key `"undefined"`),
then return the largest value among the counts. -/
def compareResponses (responses : List (Option String)) : Nat :=
  let keys := responses.map jsPropKey
  keys.foldl (fun syncStatus k => max syncStatus (keys.count k)) 0

/-- Modelled from the spec's words, for comparison with `compareResponses`:
"count occurrences of each present payload by byte-exact equality; return
the largest count" — absent slots are ignored. -/
def quorumSizeSpec (responses : List (Option String)) : Nat :=
  let present := responses.filterMap id
  present.foldl (fun acc k => max acc (present.count k)) 0

/-- Embedding of the JavaScript indexed assignment `arr[i] = v` on a
possibly sparse array: an in-range index is overwritten; an out-of-range
index extends the array to length `i + 1`, creating holes in between. -/
def setSlot (l : List (Option String)) (i : Nat) (v : String) :
    List (Option String) :=
  if i < l.length then l.set i (some v)
  else l ++ List.replicate (i - l.length) none ++ [some v]

/-- Number of slots actually holding a payload (holes excluded). -/
def countPresent (l : List (Option String)) : Nat :=
  (l.filterMap id).length

/-! ## Sync Tracker: admin-signed info messages (command 0) -/

/-- Bytes of the 6-byte `ArrayBuffer` after the two `DataView` writes in
src/unnamed/part_000 lines 97-100: `setUint32(0, epoch)` stores the
epoch big-endian (the `littleEndian` argument is omitted, hence false)
after coercion to `u32`, and `setUint16(4, tick)` stores the tick
big-endian after coercion to `u16`. -/
def infoBuffer (epoch tick : Nat) : List Nat :=
  let e := epoch % 2 ^ 32
  let t := tick % 2 ^ 16
  [e / 2 ^ 24 % 256, e / 2 ^ 16 % 256, e / 2 ^ 8 % 256, e % 256,
   t / 2 ^ 8 % 256, t % 256]

/-- Semantics of `Uint8Array.from(buffer)` at line 105, where `buffer`
is an `ArrayBuffer`: `%TypedArray%.from` first looks for an iterator
(an `ArrayBuffer` has none) and then falls back to the array-like path,
reading the argument's `length` property; an `ArrayBuffer` has no
`length` (only `byteLength`), so the resulting length is
`ToLength(undefined) = 0` and the constructed array is empty,
independently of the buffer's contents. -/
def uint8ArrayFromArrayBuffer (buffer : List Nat) : List Nat := []

/-- The message bytes actually handed to `schnorrq.verify` for an
inbound command-0 info message (line 105). -/
def verifiedInfoMessage (epoch tick : Nat) : List Nat :=
  uint8ArrayFromArrayBuffer (infoBuffer epoch tick)

/-- Sync Tracker state (src/unnamed/part_000 lines 72-76):
`latestSynchronizationTimestamp` and `latestSyncStatus` start at 0,
`statusResponses` starts as the empty array. -/
structure TrackerState where
  statusResponses : List (Option String)
  latestSyncStatus : Nat
  latestSynchronizationTimestamp : Nat
deriving DecidableEq

/-- Embedding of the command-0 branch after signature verification
succeeded (src/unnamed/part_000 lines 109-132): store the raw message
in `statusResponses[i]`, recompute the quorum, and if it strictly rose,
record progress and emit `info{syncStatus}`; on full sync (3) reset the
level to 0 and truncate the vector (`statusResponses.length = 0`).
Returns the new state and the list of emitted `syncStatus` values. -/
def onVerifiedInfo (s : TrackerState) (i : Nat) (data : String)
    (now : Nat) : TrackerState × List Nat :=
  let responses := setSlot s.statusResponses i data
  let syncStatus := compareResponses responses
  if s.latestSyncStatus < syncStatus then
    if syncStatus = 3 then
      ({ statusResponses := [], latestSyncStatus := 0,
         latestSynchronizationTimestamp := now }, [syncStatus])
    else
      ({ statusResponses := responses, latestSyncStatus := syncStatus,
         latestSynchronizationTimestamp := now }, [syncStatus])
  else
    ({ s with statusResponses := responses }, [])

/-! ## Request Router: reply dispatch (non-info messages) -/

/-- Outcome of processing one inbound reply for a pending request. -/
inductive RouterOutcome where
  | resolved (reply : String)
  | rejected (reason : String)
  | waiting
deriving DecidableEq

/-- Embedding of the non-info branch of `onmessage`
(src/unnamed/part_000 lines 139-151) for a pending request whose slot
vector is `responses`: store the raw reply at slot `i`; if
`compareResponses ≥ 2` resolve with the just-parsed reply and delete
the pending entry and its request bytes; else if the array length
reached 3 reject with `'Invalid responses.'` and delete; else wait.
Returns the updated slots, the outcome, and whether the pending entry
(and stored request) was deleted. -/
def routeReply (responses : List (Option String)) (i : Nat)
    (data : String) : List (Option String) × RouterOutcome × Bool :=
  let responses := setSlot responses i data
  if compareResponses responses ≥ 2 then
    (responses, RouterOutcome.resolved data, true)
  else if responses.length = 3 then
    (responses, RouterOutcome.rejected "Invalid responses.", true)
  else
    (responses, RouterOutcome.waiting, false)

/-! ## Request Router: correlation key and `sendCommand` -/

/-- The payload fields consulted (or claimed to be consulted) when the
correlation key of a request or reply is computed. `none` models an
absent field. -/
structure Payload where
  identity : Option String
  hash : Option String
  digest : Option String
  messageDigest : Option String
deriving DecidableEq

/-- JavaScript `a || b` on two optional strings: an absent field
(`undefined`) and the empty string are falsy, everything else is
returned as is. -/
def jsOr (a b : Option String) : Option String :=
  match a with
  | some s => if s = "" then b else some s
  | none => b

/-- JavaScript string coercion of an optional string when concatenated:
`undefined` renders as `"undefined"`. -/
def jsConcatValue : Option String → String
  | none => "undefined"
  | some s => s

/-- Embedding of the correlation key computed at src/unnamed/part_000
line 199 (`sendCommand`) and lines 137-138 (reply dispatch):
`command.toString() + (payload.identity || payload.hash)`. The
`digest` and `messageDigest` fields are never consulted. -/
def requestKey (command : Nat) (p : Payload) : String :=
  toString command ++ jsConcatValue (jsOr p.identity p.hash)

/-- Modelled from the spec's words, for comparison with `requestKey`:
"Compute `key = command || (payload.identity or payload.hash or
payload.digest)`" — the first present of identity, hash, digest. -/
def requestKeySpec (command : Nat) (p : Payload) : String :=
  toString command ++ jsConcatValue (jsOr p.identity (jsOr p.hash p.digest))

/-- Router bookkeeping owned by `createConnection`
(src/unnamed/part_000 lines 77-78): `responsesByKey` maps a key to its
pending entry (modelled by the numeric identity of its one-shot
future), `requestsByKey` maps a key to the serialized request bytes.
`framesSent` counts, per peer (the three peers are treated alike), the
outbound frames produced by `sendCommand`; `nextFuture` numbers the
futures created so far. -/
structure RouterState where
  responsesByKey : List (String × Nat)
  requestsByKey : List (String × String)
  framesSent : Nat
  nextFuture : Nat
deriving DecidableEq

/-- The serialized request `JSON.stringify({command, ...payload})`
(line 203-206), kept abstract as the pair of its inputs rendered. -/
def serializeRequest (command : Nat) (p : Payload) : String :=
  toString command ++ jsConcatValue p.identity ++ jsConcatValue p.hash ++
    jsConcatValue p.digest ++ jsConcatValue p.messageDigest

/-- Embedding of the body of `sendCommand` that runs once every socket
has opened (src/unnamed/part_000 lines 198-228): compute the key; if a
pending entry exists, return its future without sending; otherwise
serialize the request, and unless `command == 3` register a fresh
pending entry and store the request bytes for replay; in either case
broadcast one frame per peer. Returns the future handed back to the
caller (`none` when `command == 3`, whose branch registers nothing). -/
def sendCommandStep (command : Nat) (p : Payload) (s : RouterState) :
    Option Nat × RouterState :=
  let key := requestKey command p
  match (s.responsesByKey.lookup key : Option Nat) with
  | some future => (some future, s)
  | none =>
    let request := serializeRequest command p
    if command = 3 then
      (none, { s with framesSent := s.framesSent + 1 })
    else
      (some s.nextFuture,
       { responsesByKey := (key, s.nextFuture) :: s.responsesByKey,
         requestsByKey := (key, request) :: s.requestsByKey,
         framesSent := s.framesSent + 1,
         nextFuture := s.nextFuture + 1 })

/-! ## Watchdog (`synchronizationRoutine`) -/

/-- The scalar sync state read and written by the watchdog
(src/unnamed/part_000 lines 72-73). -/
structure SyncState where
  latestSynchronizationTimestamp : Nat
  latestSyncStatus : Nat
deriving DecidableEq

/-- Embedding of `synchronizationRoutine` (src/unnamed/part_000 lines
234-242): if `Date.now() - latestSynchronizationTimestamp >
synchronizationInterval`, set `latestSyncStatus = 0` and emit
`info{syncStatus: 0}`; then (unconditionally) rearm the timer for
`synchronizationInterval` later. Returns the new state, the emitted
`syncStatus` values, and the time of the next scheduled fire. -/
def synchronizationRoutine (interval now : Nat) (s : SyncState) :
    SyncState × List Nat × Nat :=
  if now - s.latestSynchronizationTimestamp > interval then
    ({ s with latestSyncStatus := 0 }, [0], now + interval)
  else
    (s, [], now + interval)

/-! ## Client layer: transfer pipeline and outbox monitor -/

/-- Observable actions of the client layer, in execution order. -/
inductive ClientEvent where
  | dbPut (digest : String)
  | dbDel (digest : String)
  | sendCmd (command : Nat)
  | emitInclusion (digest : String)
  | emitRejection (digest : String) (reason : String)
deriving DecidableEq

/-- `a` occurs strictly before `b` in the trace `T`. -/
def beforeIn {α : Type} (T : List α) (a b : α) : Prop :=
  ∃ T1 T2 T3, T = T1 ++ a :: (T2 ++ b :: T3)

/-- Trace of `Client.transaction` after the transfer bytes are built
(src/unnamed/part_000 lines 550-562): `db.put(messageDigest, …)` and,
in its `.then` continuation only after the put resolved, the command-3
broadcast `sendCommand(3, {message, signature})`. -/
def transactionEvents (digest : String) : List ClientEvent :=
  [ClientEvent.dbPut digest, ClientEvent.sendCmd 3]

/-- Trace of one invocation of the `info` listener installed by
`onTransaction` for outbox key `digest` (src/unnamed/part_000 lines
458-492): when `syncStatus > 2`, query the transfer status with
command 4; if the reply says `inclusionState === true`, delete the
outbox entry and, in the `.then` continuation of the delete, emit
`inclusion`; otherwise, if the reply carries a `reason`, emit
`rejection` (no delete). -/
def infoListenerEvents (digest : String) (syncStatus : Nat)
    (inclusionState : Bool) (reason : Option String) : List ClientEvent :=
  if syncStatus > 2 then
    ClientEvent.sendCmd 4 ::
      (if inclusionState then
        [ClientEvent.dbDel digest, ClientEvent.emitInclusion digest]
      else
        match reason with
        | some r => [ClientEvent.emitRejection digest r]
        | none => [])
  else []

/-- The within-session lifecycle of one transfer: the transaction
pipeline followed by one later run of its outbox `info` listener. -/
def transferLifecycle (digest : String) (syncStatus : Nat)
    (inclusionState : Bool) (reason : Option String) : List ClientEvent :=
  transactionEvents digest ++
    infoListenerEvents digest syncStatus inclusionState reason

/-! ## Connection lifecycle: `close` / `socket.terminate` -/

/-- The callback state of one WebSocket slot: whether the `onclose`
handler (which schedules a reconnect, src/unnamed/part_000 lines
286-298) is still attached, and whether the socket has been closed. -/
structure SocketState where
  oncloseAttached : Bool
  closed : Bool
deriving DecidableEq

/-- Whether a close event on this socket schedules a reconnect: it does
exactly when the `onclose` handler is still attached (lines 286-298);
`socket.terminate` detaches it first (line 301). -/
def schedulesReconnect (s : SocketState) : Bool :=
  s.oncloseAttached

/-- `socket.terminate()` (src/unnamed/part_000 lines 300-303): set
`socket.onclose = undefined`, then `socket.close()`. -/
def terminateSocket (s : SocketState) : SocketState :=
  { oncloseAttached := false, closed := true }

/-- Observable steps of connection teardown. -/
inductive CloseEvent where
  | detachOnclose (i : Nat)
  | closeSocket (i : Nat)
  | clearWatchdogTimer
  | emitInfo (syncStatus : Nat)
deriving DecidableEq

/-- Connection-wide mutable state relevant to teardown: the three
sockets, the identities of reconnect timers already scheduled by
earlier `onclose` firings (line 295-297; the code stores no handle to
them), the watchdog timer handle (`synchronizationTimeout`), and the
pending futures in `responsesByKey`. -/
structure ConnState where
  socket0 : SocketState
  socket1 : SocketState
  socket2 : SocketState
  pendingReconnects : List Nat
  watchdogTimer : Option Nat
  responsesByKey : List (String × Nat)
deriving DecidableEq

/-- Embedding of `close` (src/unnamed/part_000 lines 168-174):
`sockets.forEach(socket => socket.terminate())`, then
`clearTimeout(synchronizationTimeout)`, then emit
`info{syncStatus: 0}`. Nothing in this function (or in
`socket.terminate`) touches `pendingReconnects` or `responsesByKey`.
Returns the new state and the ordered trace of the steps taken. -/
def closeConnection (c : ConnState) : ConnState × List CloseEvent :=
  ({ c with
      socket0 := terminateSocket c.socket0,
      socket1 := terminateSocket c.socket1,
      socket2 := terminateSocket c.socket2,
      watchdogTimer := none },
   [CloseEvent.detachOnclose 0, CloseEvent.closeSocket 0,
    CloseEvent.detachOnclose 1, CloseEvent.closeSocket 1,
    CloseEvent.detachOnclose 2, CloseEvent.closeSocket 2,
    CloseEvent.clearWatchdogTimer, CloseEvent.emitInfo 0])

/-! ## Connection startup: `open` / `createConnection` -/

/-- Observable steps of the synchronous body of `Connection.open`. -/
inductive OpenEvent where
  | createSocket (i : Nat)
  | runSyncRoutine
  | emitInfo (syncStatus : Nat)
  | processPeerMessage
deriving DecidableEq

/-- Synchronous trace of `open()` with no index (src/unnamed/part_000
lines 306-311): `openSocket(i)` for `i = 0, 1, 2` (each only constructs
a socket and attaches callbacks; no inbound message can be processed
during this synchronous run), then `synchronizationRoutine()` runs
immediately, emitting whatever the routine emits for the given clock
and state. -/
def openTrace (interval now : Nat) (s : SyncState) : List OpenEvent :=
  [OpenEvent.createSocket 0, OpenEvent.createSocket 1,
   OpenEvent.createSocket 2, OpenEvent.runSyncRoutine] ++
    ((synchronizationRoutine interval now s).2.1).map OpenEvent.emitInfo

/-- Synchronous trace of `createConnection` up to its `return`
(src/unnamed/part_000 lines 366-368): the mixin is built with
`latestSynchronizationTimestamp = 0` and `latestSyncStatus = 0`
(lines 72-73), and `connection.open()` runs before the connection is
returned. -/
def createConnectionTrace (interval now : Nat) : List OpenEvent :=
  openTrace interval now ⟨0, 0⟩

/-! ## Helper lemmas -/

/-- The arithmetic progression `interval * k` meets every window
`[d, d + interval)`. -/
theorem exists_multiple_in_window (interval d : Nat) (hI : 0 < interval) :
    ∃ k, d ≤ interval * k ∧ interval * k < d + interval := by
  induction d using Nat.strong_induction_on with
  | _ d ih =>
    rcases Nat.eq_zero_or_pos d with h0 | hpos
    · exact ⟨0, by omega, by omega⟩
    · rcases le_or_lt d interval with hle | hgt
      · exact ⟨1, by omega, by omega⟩
      · obtain ⟨k, hk1, hk2⟩ := ih (d - interval) (by omega)
        have e : interval * (k + 1) = interval * k + interval := by ring
        exact ⟨k + 1, by omega, by omega⟩

/-- Evaluation of the watchdog body when the interval has expired. -/
theorem synchronizationRoutine_expired (interval now : Nat) (s : SyncState)
    (h : now - s.latestSynchronizationTimestamp > interval) :
    synchronizationRoutine interval now s =
      ({ s with latestSyncStatus := 0 }, [0], now + interval) := by
  unfold synchronizationRoutine
  rw [if_pos h]

/-! ## Claims -/

/-- Claim C1 (code bug): `compareResponses` does not ignore absent
slots. A hole read from a sparse array is `undefined`, which is counted
under the property key `"undefined"`, so holes are tallied as a group
of mutually "agreeing" payloads. On the slot vector `[absent, absent,
"x"]` (a single present payload, reachable when peer 2's message is
the first to arrive) the code returns 2, while the multiplicity of the
mode of the present payloads is 1. -/
theorem c1_compareResponses_counts_absent_slots :
    compareResponses [none, none, some "x"] = 2 ∧
    quorumSizeSpec [none, none, some "x"] = 1 := by
  decide

/-- Claim C2 (code bug): the message handed to `schnorrq.verify` for a
command-0 info message is not the 6-byte big-endian epoch‖tick buffer.
The code builds that buffer correctly with `DataView` writes, but then
passes `Uint8Array.from(buffer)` where `buffer` is an `ArrayBuffer`,
which yields an empty array; so verification runs over 0 bytes. Shown
at epoch 1, tick 2. -/
theorem c2_verify_message_is_empty :
    verifiedInfoMessage 1 2 = [] ∧
    infoBuffer 1 2 = [0, 0, 0, 1, 0, 2] ∧
    verifiedInfoMessage 1 2 ≠ infoBuffer 1 2 := by
  decide

/-- Claim C3 (code bug): resolution does not wait for two byte-identical
payloads, and rejection does not wait for three actual replies. With an
empty slot vector, a first reply landing at slot 2 creates two holes
that `compareResponses` counts as an agreeing pair, so the future is
resolved with a single actual reply; and with replies only at slots 1
and 2 the array already has length 3, so two disagreeing actual replies
trigger the `'Invalid responses.'` rejection. -/
theorem c3_single_reply_resolves :
    routeReply [] 2 "x" =
      ([none, none, some "x"], RouterOutcome.resolved "x", true) ∧
    countPresent [none, none, some "x"] = 1 ∧
    routeReply (setSlot [] 1 "x") 2 "y" =
      ([none, some "x", some "y"],
       RouterOutcome.rejected "Invalid responses.", true) ∧
    countPresent [none, some "x", some "y"] = 2 := by
  decide

/-- Claim C4 (code bug): after a full-sync emission the vector is indeed
cleared and the level reset to 0 (steps 1-3 below reproduce the rising
emissions 1, 2, 3 and the reset), but the next verified info from the
single peer at slot 2 re-creates two holes, `compareResponses` counts
them as an agreeing pair, and the tracker emits `syncStatus = 2`, not
at most 1. -/
theorem c4_reset_then_single_peer_emits_two :
    onVerifiedInfo ⟨[], 0, 0⟩ 0 "a" 10 = (⟨[some "a"], 1, 10⟩, [1]) ∧
    onVerifiedInfo ⟨[some "a"], 1, 10⟩ 1 "a" 11 =
      (⟨[some "a", some "a"], 2, 11⟩, [2]) ∧
    onVerifiedInfo ⟨[some "a", some "a"], 2, 11⟩ 2 "a" 12 =
      (⟨[], 0, 12⟩, [3]) ∧
    onVerifiedInfo ⟨[], 0, 12⟩ 2 "b" 13 =
      (⟨[none, none, some "b"], 2, 13⟩, [2]) := by
  decide

/-- Claim C5 (code bug): the correlation key consults only
`payload.identity || payload.hash`; neither `digest` nor the
`messageDigest` field actually sent by the command-4 status query is
ever read. Every status query therefore gets the key `"4undefined"`:
two queries for distinct digests collide, and the second caller is
handed the first query's future. -/
theorem c5_status_query_keys_collide :
    requestKey 4 ⟨none, none, none, some "AB"⟩ = "4undefined" ∧
    requestKey 4 ⟨none, none, none, some "CD"⟩ = "4undefined" ∧
    requestKeySpec 4 ⟨none, none, some "AB", none⟩ = "4AB" ∧
    (sendCommandStep 4 ⟨none, none, none, some "AB"⟩ ⟨[], [], 0, 0⟩).1 =
      some 0 ∧
    (sendCommandStep 4 ⟨none, none, none, some "CD"⟩
        (sendCommandStep 4 ⟨none, none, none, some "AB"⟩
          ⟨[], [], 0, 0⟩).2).1 = some 0 := by
  decide

/-- Claim C6, counterexample: for command 3 (transfer submission) the
claim fails. No pending entry is ever registered for command 3, so a
second call with the identical key does not find an existing future
(both calls return no future at all) and each call broadcasts its own
frame: two frames per peer are sent for the pair, not one. -/
theorem c6_counterexample_command3_sends_twice :
    (sendCommandStep 3 ⟨none, none, none, none⟩ ⟨[], [], 0, 0⟩).1 = none ∧
    (sendCommandStep 3 ⟨none, none, none, none⟩
        (sendCommandStep 3 ⟨none, none, none, none⟩ ⟨[], [], 0, 0⟩).2).1 =
      none ∧
    (sendCommandStep 3 ⟨none, none, none, none⟩
        (sendCommandStep 3 ⟨none, none, none, none⟩ ⟨[], [], 0, 0⟩).2).2.framesSent
      = 2 := by
  decide

/-- Claim C6 as amended: for any command other than 3 and a key not
already pending, the first `sendCommand` registers a pending entry,
returns its fresh future, and sends exactly one frame per peer; a
second call with the same command and payload is absorbed by that
entry: it returns the very same future and leaves the router state
unchanged, so it sends no frame. Exactly one outbound frame per peer
is sent for the pair. -/
theorem c6_coalescing_non_transfer (command : Nat) (p : Payload)
    (s : RouterState) (h : command ≠ 3)
    (hfresh : s.responsesByKey.lookup (requestKey command p) = none) :
    sendCommandStep command p (sendCommandStep command p s).2 =
      sendCommandStep command p s ∧
    (sendCommandStep command p s).1 = some s.nextFuture ∧
    (sendCommandStep command p s).2.framesSent = s.framesSent + 1 := by
  unfold sendCommandStep
  simp [hfresh, h, List.lookup]

/-- Witness for `c6_coalescing_non_transfer` at command 1 with identity
`"A"` from the empty router state, whose key is not yet pending. -/
theorem c6_coalescing_non_transfer_witness :
    ((1 : Nat) ≠ 3 ∧
     (⟨[], [], 0, 0⟩ : RouterState).responsesByKey.lookup
        (requestKey 1 ⟨some "A", none, none, none⟩) = none) ∧
    (sendCommandStep 1 ⟨some "A", none, none, none⟩
        (sendCommandStep 1 ⟨some "A", none, none, none⟩ ⟨[], [], 0, 0⟩).2 =
      sendCommandStep 1 ⟨some "A", none, none, none⟩ ⟨[], [], 0, 0⟩ ∧
     (sendCommandStep 1 ⟨some "A", none, none, none⟩ ⟨[], [], 0, 0⟩).1 =
       some 0 ∧
     (sendCommandStep 1 ⟨some "A", none, none, none⟩
        ⟨[], [], 0, 0⟩).2.framesSent = 0 + 1) :=
  ⟨⟨by decide, by decide⟩,
   c6_coalescing_non_transfer 1 ⟨some "A", none, none, none⟩ ⟨[], [], 0, 0⟩
     (by decide) (by decide)⟩

/-- Claim C7: the watchdog rearms unconditionally for one
`synchronizationInterval` later; whenever it runs with more than one
interval elapsed since the latest progress timestamp it resets
`latestSyncStatus` to 0 and emits `info{syncStatus: 0}`; and
consequently, once the interval has expired (`expiry > ts + interval`)
with no verified info arriving, some fire of the timer chain started at
`t0 ≤ expiry` lands within one interval of `expiry` and emits
`info{syncStatus: 0}` there. -/
theorem c7_watchdog_demotes_within_interval
    (interval t0 ts level expiry now : Nat) (s : SyncState)
    (hI : 0 < interval) (ht0 : t0 ≤ expiry) (hexp : ts + interval < expiry) :
    (synchronizationRoutine interval now s).2.2 = now + interval ∧
    (now - s.latestSynchronizationTimestamp > interval →
      (synchronizationRoutine interval now s).2.1 = [0] ∧
      (synchronizationRoutine interval now s).1.latestSyncStatus = 0) ∧
    ∃ k, expiry ≤ t0 + interval * k ∧ t0 + interval * k < expiry + interval ∧
      (synchronizationRoutine interval (t0 + interval * k) ⟨ts, level⟩).2.1 =
        [0] ∧
      (synchronizationRoutine interval (t0 + interval * k)
          ⟨ts, level⟩).1.latestSyncStatus = 0 := by
  refine ⟨?_, ?_, ?_⟩
  · unfold synchronizationRoutine
    split <;> rfl
  · intro h
    rw [synchronizationRoutine_expired interval now s h]
    exact ⟨rfl, rfl⟩
  · obtain ⟨k, hk1, hk2⟩ :=
      exists_multiple_in_window interval (expiry - t0) hI
    have hc : t0 + interval * k -
        (⟨ts, level⟩ : SyncState).latestSynchronizationTimestamp >
        interval := by
      show t0 + interval * k - ts > interval
      omega
    refine ⟨k, by omega, by omega, ?_, ?_⟩ <;>
      rw [synchronizationRoutine_expired _ _ _ hc]

/-- Witness for `c7_watchdog_demotes_within_interval` with interval 10,
timer chain started at 0, last progress at 0, expiry observed at 11,
and a probe run at time 25. -/
theorem c7_watchdog_witness :
    ((0 : Nat) < 10 ∧ (0 : Nat) ≤ 11 ∧ 0 + 10 < 11) ∧
    ((synchronizationRoutine 10 25 ⟨0, 3⟩).2.2 = 25 + 10 ∧
     (25 - (⟨0, 3⟩ : SyncState).latestSynchronizationTimestamp > 10 →
       (synchronizationRoutine 10 25 ⟨0, 3⟩).2.1 = [0] ∧
       (synchronizationRoutine 10 25 ⟨0, 3⟩).1.latestSyncStatus = 0) ∧
     ∃ k, 11 ≤ 0 + 10 * k ∧ 0 + 10 * k < 11 + 10 ∧
       (synchronizationRoutine 10 (0 + 10 * k) ⟨0, 3⟩).2.1 = [0] ∧
       (synchronizationRoutine 10 (0 + 10 * k) ⟨0, 3⟩).1.latestSyncStatus
         = 0) :=
  ⟨⟨by decide, by decide, by decide⟩,
   c7_watchdog_demotes_within_interval 10 0 0 3 11 25 ⟨0, 3⟩
     (by decide) (by decide) (by decide)⟩

/-- Claim C8: in the transfer lifecycle, the durable `put` of the
transfer digest occurs strictly before the command-3 broadcast (the
broadcast runs in the `.then` continuation of the put); and whenever an
`inclusion` event for the digest occurs in the lifecycle, both a prior
`put` of that digest and a prior `del` of the outbox entry occur before
the event fires (the emission runs in the `.then` continuation of the
delete). -/
theorem c8_write_ahead_outbox (digest : String) (syncStatus : Nat)
    (inclusionState : Bool) (reason : Option String) :
    beforeIn (transferLifecycle digest syncStatus inclusionState reason)
      (ClientEvent.dbPut digest) (ClientEvent.sendCmd 3) ∧
    (ClientEvent.emitInclusion digest ∈
        transferLifecycle digest syncStatus inclusionState reason →
      beforeIn (transferLifecycle digest syncStatus inclusionState reason)
        (ClientEvent.dbPut digest) (ClientEvent.emitInclusion digest) ∧
      beforeIn (transferLifecycle digest syncStatus inclusionState reason)
        (ClientEvent.dbDel digest) (ClientEvent.emitInclusion digest)) := by
  unfold transferLifecycle transactionEvents infoListenerEvents
  by_cases hss : syncStatus > 2
  · rw [if_pos hss]
    cases inclusionState with
    | false =>
      cases reason with
      | none =>
        refine ⟨⟨[], [], [ClientEvent.sendCmd 4], rfl⟩, fun h => ?_⟩
        simp at h
      | some r =>
        refine ⟨⟨[], [], [ClientEvent.sendCmd 4,
          ClientEvent.emitRejection digest r], rfl⟩, fun h => ?_⟩
        simp at h
    | true =>
      refine ⟨⟨[], [], [ClientEvent.sendCmd 4, ClientEvent.dbDel digest,
        ClientEvent.emitInclusion digest], rfl⟩, fun h => ⟨?_, ?_⟩⟩
      · exact ⟨[], [ClientEvent.sendCmd 3, ClientEvent.sendCmd 4,
          ClientEvent.dbDel digest], [], rfl⟩
      · exact ⟨[ClientEvent.dbPut digest, ClientEvent.sendCmd 3,
          ClientEvent.sendCmd 4], [], [], rfl⟩
  · rw [if_neg hss]
    refine ⟨⟨[], [], [], rfl⟩, fun h => ?_⟩
    simp at h

/-- Witness for `c8_write_ahead_outbox` at digest `"D"`, an info
emission with `syncStatus = 3`, and a reply reporting inclusion, with
the membership premise of the inclusion part discharged. -/
theorem c8_write_ahead_outbox_witness :
    beforeIn (transferLifecycle "D" 3 true none)
      (ClientEvent.dbPut "D") (ClientEvent.sendCmd 3) ∧
    beforeIn (transferLifecycle "D" 3 true none)
      (ClientEvent.dbPut "D") (ClientEvent.emitInclusion "D") ∧
    beforeIn (transferLifecycle "D" 3 true none)
      (ClientEvent.dbDel "D") (ClientEvent.emitInclusion "D") :=
  ⟨(c8_write_ahead_outbox "D" 3 true none).1,
   ((c8_write_ahead_outbox "D" 3 true none).2 (by decide)).1,
   ((c8_write_ahead_outbox "D" 3 true none).2 (by decide)).2⟩

/-- Claim C9, counterexample: `close` does not drop pending reconnect
timers. Starting from a connection state in which one reconnect timer
is already scheduled (a socket closed shortly before `close` was
called), the state after `close` still holds that timer — nothing in
`close` or `socket.terminate` clears it, so it will fire and re-open a
socket after termination. -/
theorem c9_counterexample_reconnect_timer_not_dropped :
    (closeConnection
        ⟨⟨true, false⟩, ⟨true, false⟩, ⟨true, false⟩, [1], some 7,
         [("1A", 0)]⟩).1.pendingReconnects = [1] ∧
    ([1] : List Nat) ≠ [] := by
  decide

/-- Claim C9 as amended: on explicit termination each socket's close
callback is detached strictly before that socket is closed, so a
terminated socket's own close event schedules no new reconnect; the
watchdog timer is cancelled; and in-flight request futures are left
untouched (neither resolved nor rejected — `responsesByKey` survives
unchanged). However, a reconnect timer that was already scheduled
before `close` is not cleared (`pendingReconnects` also survives
unchanged). -/
theorem c9_close_detaches_before_closing (c : ConnState) :
    beforeIn (closeConnection c).2 (CloseEvent.detachOnclose 0)
      (CloseEvent.closeSocket 0) ∧
    beforeIn (closeConnection c).2 (CloseEvent.detachOnclose 1)
      (CloseEvent.closeSocket 1) ∧
    beforeIn (closeConnection c).2 (CloseEvent.detachOnclose 2)
      (CloseEvent.closeSocket 2) ∧
    schedulesReconnect (closeConnection c).1.socket0 = false ∧
    schedulesReconnect (closeConnection c).1.socket1 = false ∧
    schedulesReconnect (closeConnection c).1.socket2 = false ∧
    (closeConnection c).1.watchdogTimer = none ∧
    (closeConnection c).1.responsesByKey = c.responsesByKey ∧
    (closeConnection c).1.pendingReconnects = c.pendingReconnects := by
  refine ⟨⟨[], [], [CloseEvent.detachOnclose 1, CloseEvent.closeSocket 1,
      CloseEvent.detachOnclose 2, CloseEvent.closeSocket 2,
      CloseEvent.clearWatchdogTimer, CloseEvent.emitInfo 0], rfl⟩,
    ⟨[CloseEvent.detachOnclose 0, CloseEvent.closeSocket 0], [],
      [CloseEvent.detachOnclose 2, CloseEvent.closeSocket 2,
       CloseEvent.clearWatchdogTimer, CloseEvent.emitInfo 0], rfl⟩,
    ⟨[CloseEvent.detachOnclose 0, CloseEvent.closeSocket 0,
      CloseEvent.detachOnclose 1, CloseEvent.closeSocket 1], [],
      [CloseEvent.clearWatchdogTimer, CloseEvent.emitInfo 0], rfl⟩,
    rfl, rfl, rfl, rfl, rfl, rfl⟩

/-- Claim C10: the synchronous body of `createConnection` (which calls
`connection.open()` before returning) runs the synchronization routine
exactly once, processes no peer message, and — because the latest
synchronization timestamp starts at 0 — emits `info{syncStatus: 0}`
during that very run whenever the wall-clock time exceeds
`synchronizationInterval`. -/
theorem c10_sync_routine_runs_at_startup (interval now : Nat) :
    List.count OpenEvent.runSyncRoutine
      (createConnectionTrace interval now) = 1 ∧
    OpenEvent.processPeerMessage ∉ createConnectionTrace interval now ∧
    (now > interval →
      OpenEvent.emitInfo 0 ∈ createConnectionTrace interval now) := by
  by_cases h : now > interval
  · have ht : createConnectionTrace interval now =
        [OpenEvent.createSocket 0, OpenEvent.createSocket 1,
         OpenEvent.createSocket 2, OpenEvent.runSyncRoutine,
         OpenEvent.emitInfo 0] := by
      simp [createConnectionTrace, openTrace, synchronizationRoutine, h]
    rw [ht]
    exact ⟨by decide, by decide, fun _ => by decide⟩
  · have ht : createConnectionTrace interval now =
        [OpenEvent.createSocket 0, OpenEvent.createSocket 1,
         OpenEvent.createSocket 2, OpenEvent.runSyncRoutine] := by
      simp [createConnectionTrace, openTrace, synchronizationRoutine, h]
    rw [ht]
    exact ⟨by decide, by decide, fun hc => absurd hc h⟩

/-- Witness for `c10_sync_routine_runs_at_startup` at interval 5 and
current time 10, with the startup-emission premise discharged. -/
theorem c10_sync_routine_witness :
    List.count OpenEvent.runSyncRoutine (createConnectionTrace 5 10) = 1 ∧
    OpenEvent.processPeerMessage ∉ createConnectionTrace 5 10 ∧
    OpenEvent.emitInfo 0 ∈ createConnectionTrace 5 10 :=
  ⟨(c10_sync_routine_runs_at_startup 5 10).1,
   (c10_sync_routine_runs_at_startup 5 10).2.1,
   (c10_sync_routine_runs_at_startup 5 10).2.2 (by decide)⟩

end QubicJs
